import Mathlib

/-!
Verification of the price-updates repository (four TypeScript variants in
`src/index.ts`: a Telegram bot, a Telegram bot with a keep-alive HTTP server,
an HTTP price dashboard, and an email reporter) against its natural-language
specification.

Embedding conventions:
* JavaScript numbers are modelled as exact rationals (`ℚ`); the rounding done
  by `Number.prototype.toFixed` and `Number.prototype.toLocaleString` is
  modelled by scaled integer arithmetic (round half toward positive infinity,
  which is `floor (x * 10^f + 1/2)`).
* `new Date().toLocaleString(...)` wall-clock strings are passed as explicit
  `String` parameters.
* A CoinGecko price response body is a partial map from provider id to the
  `{usd, usd_24h_change}` record; an absent `usd_24h_change` field is `none`.
* `fetch` results are passed in explicitly (`HttpResponse`); the sequence of
  responses the network would deliver is a list, so that consuming exactly one
  element models a single attempt with no retry.
* Thrown JavaScript errors are modelled by `Except String` carrying the error
  message; `try`/`catch` becomes a `match` on that value.
-/

/-! ### JS number formatting, modelled over `ℚ` -/

/-- `floor (q * 10^f + 1/2)` computed on numerator and denominator, the
rounding used by `toFixed`/`toLocaleString` (ties round up). -/
def jsRoundTo (f : Nat) (q : ℚ) : Int :=
  Int.fdiv (2 * q.num * (10 : Int) ^ f + (q.den : Int)) (2 * (q.den : Int))

/-- Left-pad a digit string with zeros up to `len` characters. -/
def padZeros (s : String) (len : Nat) : String :=
  if len ≤ s.length then s
  else String.mk (List.replicate (len - s.length) '0') ++ s

/-- Insert a separator after every third character (input is the reversed
digit list of the integer part). -/
def group3 : List Char → List Char
  | [] => []
  | [a] => [a]
  | [a, b] => [a, b]
  | [a, b, c] => [a, b, c]
  | a :: b :: c :: d :: rest => a :: b :: c :: ',' :: group3 (d :: rest)

/-- `en-US` thousands grouping of a digit string. -/
def groupThousands (s : String) : String :=
  String.mk (group3 s.data.reverse).reverse

/-- Drop trailing zeros but keep at least `minLen` characters: the
`minimumFractionDigits: 2, maximumFractionDigits: 8` behaviour. -/
def trimTrailingZerosMin (s : String) (minLen : Nat) : String :=
  let zeros := (s.data.reverse.takeWhile (fun c => c == '0')).length
  String.mk (s.data.take (max minLen (s.data.length - zeros)))

/-- Digits of a non-negative value scaled by `10^8`: grouped integer part,
point, 2–8 fraction digits. -/
def formatDigitsUS (m : Nat) : String :=
  groupThousands (toString (m / 100000000)) ++ "."
    ++ trimTrailingZerosMin (padZeros (toString (m % 100000000)) 8) 2

/-- `toLocaleString('en-US', {minimumFractionDigits: 2, maximumFractionDigits: 8})`. -/
def formatNumberUS (q : ℚ) : String :=
  let n := jsRoundTo 8 q
  (if n < 0 then "-" else "") ++ formatDigitsUS n.natAbs

/-- `toLocaleString('en-US', {style: 'currency', currency: 'USD',
minimumFractionDigits: 2, maximumFractionDigits: 8})`. -/
def formatCurrencyUSD (q : ℚ) : String :=
  let n := jsRoundTo 8 q
  (if n < 0 then "-" else "") ++ "$" ++ formatDigitsUS n.natAbs

/-- `Number.prototype.toFixed(f)`. -/
def toFixed (q : ℚ) (f : Nat) : String :=
  let n := jsRoundTo f q
  (if n < 0 then "-" else "") ++ toString (n.natAbs / 10 ^ f) ++ "."
    ++ padZeros (toString (n.natAbs % 10 ^ f)) f

/-- Concatenation of a list of strings: `Array.prototype.join('')`. -/
def joinAll : List String → String
  | [] => ""
  | s :: rest => s ++ joinAll rest

/-- `sub` is a prefix of `s` (on character lists). -/
def leadsWith : List Char → List Char → Bool
  | _, [] => true
  | [], _ :: _ => false
  | a :: s, b :: t => a == b && leadsWith s t

/-- `sub` occurs somewhere in `s` (on character lists). -/
def containsSeq : List Char → List Char → Bool
  | [], sub => sub.isEmpty
  | a :: rest, sub => leadsWith (a :: rest) sub || containsSeq rest sub

/-- `sub` occurs somewhere in the string `s`. -/
def strContains (s sub : String) : Bool :=
  containsSeq s.data sub.data

/-! ### Data model (interfaces `CoinGeckoResponse` and `CryptoPrice`) -/

/-- One entry of the CoinGecko simple-price response:
`{usd: number, usd_24h_change: number}`, the 24h-change field possibly
absent from the JSON. -/
structure PriceData where
  usd : ℚ
  usd_24h_change : Option ℚ
deriving DecidableEq

/-- `interface CoinGeckoResponse { [key: string]: {usd, usd_24h_change} }`. -/
abbrev CoinGeckoResponse : Type := String → Option PriceData

/-- `interface CryptoPrice` shared by all four variants. -/
structure CryptoPrice where
  id : String
  symbol : String
  name : String
  current_price : ℚ
  price_change_percentage_24h : ℚ
deriving DecidableEq

/-! ### The static token maps (`CRYPTO_TOKENS`) of the four variants -/

/-- `CRYPTO_TOKENS` of the Telegram-bot variant (insertion order kept). -/
def CRYPTO_TOKENS : List (String × String) :=
  [("COOKIE", "cookie-dao"), ("BTC", "bitcoin"), ("KAITO", "kaito-ai")]

/-- `CRYPTO_TOKENS` of the Telegram-bot-with-HTTP-server variant. -/
def CRYPTO_TOKENS_server : List (String × String) :=
  [("COOKIE", "cookie-dao"), ("BTC", "bitcoin"), ("KAITO", "kaito-ai")]

/-- `CRYPTO_TOKENS` of the dashboard variant: different provider ids for
COOKIE and KAITO. -/
def CRYPTO_TOKENS_dashboard : List (String × String) :=
  [("COOKIE", "cookie"), ("BTC", "bitcoin"), ("KAITO", "kaito")]

/-- `CRYPTO_TOKENS` of the email variant. -/
def CRYPTO_TOKENS_email : List (String × String) :=
  [("COOKIE", "cookie-dao"), ("BTC", "bitcoin"), ("KAITO", "kaito-ai")]

/-- The `for (const [symbol, coinGeckoId] of Object.entries(CRYPTO_TOKENS))`
loop of `getCryptoPrices`: look each tracked provider id up in the response,
push a quote when the entry is present, skip it otherwise.  `priceData.usd_24h_change || 0`
is JavaScript truthiness on numbers: `0` (and an absent field) yields `0`. -/
def parsePrices (data : CoinGeckoResponse) : List (String × String) → List CryptoPrice
  | [] => []
  | (symbol, coinGeckoId) :: entries =>
    match data coinGeckoId with
    | some priceData =>
        { id := coinGeckoId, symbol := symbol, name := symbol,
          current_price := priceData.usd,
          price_change_percentage_24h :=
            match priceData.usd_24h_change with
            | some c => if c = 0 then 0 else c
            | none => 0 } :: parsePrices data entries
    | none => parsePrices data entries

/-- The part of a `fetch` response that `getCryptoPrices` inspects. -/
structure HttpResponse where
  ok : Bool
  status : Nat
  body : CoinGeckoResponse

/-- `getCryptoPrices` of the Telegram-bot variant, as a function of the fetch
response: a non-ok status throws `HTTP error! status: ...` (the `catch` block
logs and rethrows, so the error reaches the caller unchanged). -/
def getCryptoPrices (response : HttpResponse) : Except String (List CryptoPrice) :=
  if !response.ok then
    Except.error ("HTTP error! status: " ++ toString response.status)
  else
    Except.ok (parsePrices response.body CRYPTO_TOKENS)

/-- `getCryptoPrices` of the Telegram-bot-with-HTTP-server variant. -/
def getCryptoPrices_server (response : HttpResponse) : Except String (List CryptoPrice) :=
  if !response.ok then
    Except.error ("HTTP error! status: " ++ toString response.status)
  else
    Except.ok (parsePrices response.body CRYPTO_TOKENS_server)

/-- `getCryptoPrices` of the dashboard variant. -/
def getCryptoPrices_dashboard (response : HttpResponse) : Except String (List CryptoPrice) :=
  if !response.ok then
    Except.error ("HTTP error! status: " ++ toString response.status)
  else
    Except.ok (parsePrices response.body CRYPTO_TOKENS_dashboard)

/-- `getCryptoPrices` of the email variant. -/
def getCryptoPrices_email (response : HttpResponse) : Except String (List CryptoPrice) :=
  if !response.ok then
    Except.error ("HTTP error! status: " ++ toString response.status)
  else
    Except.ok (parsePrices response.body CRYPTO_TOKENS)

/-- One run of `getCryptoPrices` against the sequence of responses the network
would deliver: the single `fetch` consumes exactly the first response and the
rest of the sequence is untouched (no retry).  An empty sequence models the
`fetch` promise itself rejecting. -/
def getCryptoPricesRun (fetches : List HttpResponse) :
    Except String (List CryptoPrice) × List HttpResponse :=
  match fetches with
  | [] => (Except.error "fetch failed", [])
  | response :: remaining => (getCryptoPrices response, remaining)

/-! ### `formatTelegramMessage` -/

/-- The two per-run header lines of the Telegram message (`date` is the
Brisbane-formatted wall clock). -/
def telegramHeader (date : String) : String :=
  "🚀 *Daily Crypto Price Report*\n" ++ ("📅 " ++ date ++ "\n\n")

/-- The two footer lines of the Telegram message. -/
def telegramFooter : String :=
  "📊 _Data provided by CoinGecko API_\n" ++ "⏰ _Sent daily at 11:00 AM Brisbane time_"

/-- The three `message +=` lines the `prices.forEach` body appends for one
token: bold symbol, formatted USD price, and 24h change with `📈`/`📉` chosen
by `price_change_percentage_24h >= 0` and a `+` sign in the `>= 0` case. -/
def tokenLine (token : CryptoPrice) : String :=
  let changeEmoji := if token.price_change_percentage_24h ≥ 0 then "📈" else "📉"
  let changeSymbol := if token.price_change_percentage_24h ≥ 0 then "+" else ""
  let price := formatCurrencyUSD token.current_price
  "*" ++ token.symbol ++ "*\n"
    ++ ("💰 " ++ price ++ "\n")
    ++ (changeEmoji ++ " "
        ++ (changeSymbol ++ toFixed token.price_change_percentage_24h 2) ++ "% (24h)\n\n")

/-- `formatTelegramMessage`: header, one block per quote in list order
(the `forEach` accumulation), footer. -/
def formatTelegramMessage (prices : List CryptoPrice) (date : String) : String :=
  (prices.foldl (fun message token => message ++ tokenLine token) (telegramHeader date))
    ++ telegramFooter

/-! ### `sendCryptoPriceUpdate` (push variant) -/

/-- The plain-text failure notification built in the `catch` block of
`sendCryptoPriceUpdate` (`dateTime` is the Brisbane-formatted wall clock). -/
def telegramFailureText (e : String) (dateTime : String) : String :=
  "❌ *Crypto Price Update Failed*\n\n" ++ ("Error: " ++ e ++ "\n\n")
    ++ ("Time: " ++ dateTime)

/-- Everything one run of the push pipeline reads from its environment:
configuration, the price-fetch outcome, whether each of the two possible
Telegram sends would throw (`none` = the send succeeds), and the two
wall-clock strings it formats. -/
structure BotEnv where
  botToken : String
  chatId : String
  fetchResult : Except String (List CryptoPrice)
  firstSendFails : Option String
  notifySendFails : Option String
  date : String
  dateTime : String

/-- The `try` block of `sendCryptoPriceUpdate`: fetch, reject an empty quote
list, format, send.  Returns the texts handed to `sendTelegramMessage` and the
error the block throws, if any. -/
def updateTryBlock (env : BotEnv) : List String × Option String :=
  match env.fetchResult with
  | Except.error e => ([], some e)
  | Except.ok prices =>
      if prices.length = 0 then ([], some "No price data retrieved")
      else
        let message := formatTelegramMessage prices env.date
        match env.firstSendFails with
        | none => ([message], none)
        | some sendError => ([message], some sendError)

/-- The `catch` block: when both `BOT_TOKEN` and `CHAT_ID` are configured
(JavaScript string truthiness: non-empty) it attempts exactly one failure
notification inside an inner `try`/`catch`, so its own failure is logged and
swallowed in both branches; otherwise nothing is sent.  Nothing is rethrown. -/
def updateCatchBlock (env : BotEnv) (e : String) : List String × Option String :=
  if env.botToken ≠ "" ∧ env.chatId ≠ "" then
    match env.notifySendFails with
    | none => ([telegramFailureText e env.dateTime], none)
    | some _telegramError => ([telegramFailureText e env.dateTime], none)
  else ([], none)

/-- `sendCryptoPriceUpdate`: run the `try` block; on a thrown error run the
`catch` block.  Result: all attempted Telegram sends in order, and the error
escaping the whole function, if any. -/
def sendCryptoPriceUpdate (env : BotEnv) : List String × Option String :=
  match updateTryBlock env with
  | (attempts, none) => (attempts, none)
  | (attempts, some e) =>
      let caught := updateCatchBlock env e
      (attempts ++ caught.1, caught.2)

/-! ### `generateHTML` (dashboard variant) -/

/-- Template text of `generateHTML` before the `${now}` splice.  Braces are
written `\x7b`/`\x7d` and apostrophes `\x27`; the text is otherwise verbatim. -/
def htmlPart1 : String :=
  "\n"
  ++ "<!DOCTYPE html>\n"
  ++ "<html lang=\"en\">\n"
  ++ "<head>\n"
  ++ "    <meta charset=\"UTF-8\">\n"
  ++ "    <meta name=\"viewport\" content=\"width=device-width, initial-scale=1.0\">\n"
  ++ "    <title>🚀 Crypto Price Dashboard</title>\n"
  ++ "    <style>\n"
  ++ "        * \x7b\n"
  ++ "            margin: 0;\n"
  ++ "            padding: 0;\n"
  ++ "            box-sizing: border-box;\n"
  ++ "        \x7d\n"
  ++ "        \n"
  ++ "        body \x7b\n"
  ++ "            font-family: \x27Segoe UI\x27, Tahoma, Geneva, Verdana, sans-serif;\n"
  ++ "            background: linear-gradient(135deg, #667eea 0%, #764ba2 100%);\n"
  ++ "            min-height: 100vh;\n"
  ++ "            padding: 20px;\n"
  ++ "            color: #333;\n"
  ++ "        \x7d\n"
  ++ "        \n"
  ++ "        .container \x7b\n"
  ++ "            max-width: 1200px;\n"
  ++ "            margin: 0 auto;\n"
  ++ "        \x7d\n"
  ++ "        \n"
  ++ "        .header \x7b\n"
  ++ "            text-align: center;\n"
  ++ "            margin-bottom: 40px;\n"
  ++ "            color: white;\n"
  ++ "        \x7d\n"
  ++ "        \n"
  ++ "        .header h1 \x7b\n"
  ++ "            font-size: 3rem;\n"
  ++ "            margin-bottom: 10px;\n"
  ++ "            text-shadow: 2px 2px 4px rgba(0,0,0,0.3);\n"
  ++ "        \x7d\n"
  ++ "        \n"
  ++ "        .header .subtitle \x7b\n"
  ++ "            font-size: 1.2rem;\n"
  ++ "            opacity: 0.9;\n"
  ++ "            margin-bottom: 20px;\n"
  ++ "        \x7d\n"
  ++ "        \n"
  ++ "        .last-updated \x7b\n"
  ++ "            background: rgba(255,255,255,0.2);\n"
  ++ "            padding: 10px 20px;\n"
  ++ "            border-radius: 25px;\n"
  ++ "            display: inline-block;\n"
  ++ "            backdrop-filter: blur(10px);\n"
  ++ "            border: 1px solid rgba(255,255,255,0.3);\n"
  ++ "        \x7d\n"
  ++ "        \n"
  ++ "        .price-grid \x7b\n"
  ++ "            display: grid;\n"
  ++ "            grid-template-columns: repeat(auto-fit, minmax(300px, 1fr));\n"
  ++ "            gap: 30px;\n"
  ++ "            margin-bottom: 40px;\n"
  ++ "        \x7d\n"
  ++ "        \n"
  ++ "        .price-card \x7b\n"
  ++ "            background: rgba(255,255,255,0.95);\n"
  ++ "            border-radius: 20px;\n"
  ++ "            padding: 30px;\n"
  ++ "            box-shadow: 0 20px 40px rgba(0,0,0,0.1);\n"
  ++ "            backdrop-filter: blur(10px);\n"
  ++ "            border: 1px solid rgba(255,255,255,0.2);\n"
  ++ "            transition: transform 0.3s ease, box-shadow 0.3s ease;\n"
  ++ "            text-align: center;\n"
  ++ "        \x7d\n"
  ++ "        \n"
  ++ "        .price-card:hover \x7b\n"
  ++ "            transform: translateY(-10px);\n"
  ++ "            box-shadow: 0 30px 60px rgba(0,0,0,0.2);\n"
  ++ "        \x7d\n"
  ++ "        \n"
  ++ "        .token-symbol \x7b\n"
  ++ "            font-size: 2rem;\n"
  ++ "            font-weight: bold;\n"
  ++ "            margin-bottom: 15px;\n"
  ++ "            color: #4f46e5;\n"
  ++ "        \x7d\n"
  ++ "        \n"
  ++ "        .token-price \x7b\n"
  ++ "            font-size: 2.5rem;\n"
  ++ "            font-weight: bold;\n"
  ++ "            margin-bottom: 15px;\n"
  ++ "            color: #1f2937;\n"
  ++ "        \x7d\n"
  ++ "        \n"
  ++ "        .token-change \x7b\n"
  ++ "            font-size: 1.2rem;\n"
  ++ "            font-weight: 600;\n"
  ++ "        \x7d\n"
  ++ "        \n"
  ++ "        .controls \x7b\n"
  ++ "            text-align: center;\n"
  ++ "            margin-bottom: 30px;\n"
  ++ "        \x7d\n"
  ++ "        \n"
  ++ "        .refresh-btn \x7b\n"
  ++ "            background: linear-gradient(45deg, #10b981, #059669);\n"
  ++ "            color: white;\n"
  ++ "            border: none;\n"
  ++ "            padding: 15px 30px;\n"
  ++ "            font-size: 1.1rem;\n"
  ++ "            border-radius: 25px;\n"
  ++ "            cursor: pointer;\n"
  ++ "            transition: all 0.3s ease;\n"
  ++ "            box-shadow: 0 4px 15px rgba(16, 185, 129, 0.3);\n"
  ++ "        \x7d\n"
  ++ "        \n"
  ++ "        .refresh-btn:hover \x7b\n"
  ++ "            transform: translateY(-2px);\n"
  ++ "            box-shadow: 0 8px 25px rgba(16, 185, 129, 0.4);\n"
  ++ "        \x7d\n"
  ++ "        \n"
  ++ "        .auto-refresh \x7b\n"
  ++ "            margin-top: 15px;\n"
  ++ "            color: white;\n"
  ++ "            opacity: 0.8;\n"
  ++ "        \x7d\n"
  ++ "        \n"
  ++ "        .error \x7b\n"
  ++ "            background: rgba(239, 68, 68, 0.1);\n"
  ++ "            border: 1px solid rgba(239, 68, 68, 0.3);\n"
  ++ "            color: #dc2626;\n"
  ++ "            padding: 20px;\n"
  ++ "            border-radius: 10px;\n"
  ++ "            margin-bottom: 20px;\n"
  ++ "            text-align: center;\n"
  ++ "        \x7d\n"
  ++ "        \n"
  ++ "        .footer \x7b\n"
  ++ "            text-align: center;\n"
  ++ "            color: white;\n"
  ++ "            opacity: 0.7;\n"
  ++ "            margin-top: 40px;\n"
  ++ "        \x7d\n"
  ++ "        \n"
  ++ "        @media (max-width: 768px) \x7b\n"
  ++ "            .header h1 \x7b\n"
  ++ "                font-size: 2rem;\n"
  ++ "            \x7d\n"
  ++ "            \n"
  ++ "            .price-grid \x7b\n"
  ++ "                grid-template-columns: 1fr;\n"
  ++ "                gap: 20px;\n"
  ++ "            \x7d\n"
  ++ "            \n"
  ++ "            .token-price \x7b\n"
  ++ "                font-size: 2rem;\n"
  ++ "            \x7d\n"
  ++ "        \x7d\n"
  ++ "        \n"
  ++ "        .loading \x7b\n"
  ++ "            text-align: center;\n"
  ++ "            color: white;\n"
  ++ "            font-size: 1.2rem;\n"
  ++ "            margin: 20px 0;\n"
  ++ "        \x7d\n"
  ++ "        \n"
  ++ "        .spinner \x7b\n"
  ++ "            border: 4px solid rgba(255,255,255,0.3);\n"
  ++ "            border-radius: 50%;\n"
  ++ "            border-top: 4px solid white;\n"
  ++ "            width: 40px;\n"
  ++ "            height: 40px;\n"
  ++ "            animation: spin 1s linear infinite;\n"
  ++ "            margin: 20px auto;\n"
  ++ "        \x7d\n"
  ++ "        \n"
  ++ "        @keyframes spin \x7b\n"
  ++ "            0% \x7b transform: rotate(0deg); \x7d\n"
  ++ "            100% \x7b transform: rotate(360deg); \x7d\n"
  ++ "        \x7d\n"
  ++ "    </style>\n"
  ++ "</head>\n"
  ++ "<body>\n"
  ++ "    <div class=\"container\">\n"
  ++ "        <div class=\"header\">\n"
  ++ "            <h1>🚀 Crypto Price Dashboard</h1>\n"
  ++ "            <div class=\"subtitle\">Live prices for COOKIE, BTC & KAITO</div>\n"
  ++ "            <div class=\"last-updated\">\n"
  ++ "                📅 Last updated: "

/-- Template text between the `${now}` splice and the error ternary. -/
def htmlPart2 : String :=
  "\n"
  ++ "            </div>\n"
  ++ "        </div>\n"
  ++ "        \n"
  ++ "        "

/-- Template text between the error ternary and the `${priceCards || ...}`
splice. -/
def htmlPart3 : String :=
  "\n"
  ++ "        \n"
  ++ "        <div class=\"controls\">\n"
  ++ "            <button class=\"refresh-btn\" onclick=\"refreshPrices()\">\n"
  ++ "                🔄 Refresh Prices\n"
  ++ "            </button>\n"
  ++ "            <div class=\"auto-refresh\">\n"
  ++ "                🔄 Auto-refreshes every 5 minutes\n"
  ++ "            </div>\n"
  ++ "        </div>\n"
  ++ "        \n"
  ++ "        <div class=\"price-grid\">\n"
  ++ "            "

/-- Template text after the `${priceCards || ...}` splice. -/
def htmlPart4 : String :=
  "\n"
  ++ "        </div>\n"
  ++ "        \n"
  ++ "        <div class=\"footer\">\n"
  ++ "            <p>📊 Data provided by CoinGecko API</p>\n"
  ++ "            <p>🌏 Times shown in Brisbane timezone</p>\n"
  ++ "        </div>\n"
  ++ "    </div>\n"
  ++ "    \n"
  ++ "    <script>\n"
  ++ "        // Auto-refresh every 5 minutes\n"
  ++ "        setInterval(() => \x7b\n"
  ++ "            location.reload();\n"
  ++ "        \x7d, 5 * 60 * 1000);\n"
  ++ "        \n"
  ++ "        function refreshPrices() \x7b\n"
  ++ "            location.reload();\n"
  ++ "        \x7d\n"
  ++ "        \n"
  ++ "        // Add some loading animation when refreshing\n"
  ++ "        function showLoading() \x7b\n"
  ++ "            document.querySelector(\x27.price-grid\x27).innerHTML = \n"
  ++ "                \x27<div class=\"loading\"><div class=\"spinner\"></div>Refreshing prices...</div>\x27;\n"
  ++ "        \x7d\n"
  ++ "    </script>\n"
  ++ "</body>\n"
  ++ "</html>\n"
  ++ "  "

/-- Card template before `${token.symbol}`. -/
def cardPart1 : String :=
  "\n"
  ++ "      <div class=\"price-card\">\n"
  ++ "        <div class=\"token-symbol\">"

/-- Card template between the symbol and the formatted price (including the
literal dollar sign of `$${...}`). -/
def cardPart2 : String :=
  "</div>\n"
  ++ "        <div class=\"token-price\">$"

/-- Card template between the price and `${changeColor}`. -/
def cardPart3 : String :=
  "</div>\n"
  ++ "        <div class=\"token-change\" style=\"color: "

/-- Card template between the color and the change text. -/
def cardPart4 : String :=
  "\">\n"
  ++ "          "

/-- Card template after the change text. -/
def cardPart5 : String :=
  "\n"
  ++ "        </div>\n"
  ++ "      </div>\n"
  ++ "    "

/-- The fallback shown when `priceCards` is the empty string
(`${priceCards || '<div class="loading">...'}`). -/
def htmlLoadingCards : String :=
  "<div class=\"loading\"><div class=\"spinner\"></div>Loading prices...</div>"

/-- One entry of `prices.map(token => ...)` in `generateHTML`: indicator `▲`/`▼`
and color chosen by `price_change_percentage_24h >= 0` (the computed
`changeClass` is never used in the template). -/
def priceCard (token : CryptoPrice) : String :=
  let changeSymbol := if token.price_change_percentage_24h ≥ 0 then "▲" else "▼"
  let changeColor := if token.price_change_percentage_24h ≥ 0 then "#10b981" else "#ef4444"
  cardPart1 ++ token.symbol ++ cardPart2 ++ formatNumberUS token.current_price
    ++ cardPart3 ++ changeColor ++ cardPart4
    ++ (changeSymbol ++ " " ++ toFixed token.price_change_percentage_24h 2 ++ "% (24h)")
    ++ cardPart5

/-- The error banner of `generateHTML`. -/
def errDiv (e : String) : String :=
  "<div class=\"error\">❌ Error: " ++ e ++ "</div>"

/-- `generateHTML(prices, error?)`: the full page template with the price
cards (or the loading placeholder when there are none) and the error banner
when `error` is truthy (present and non-empty). -/
def generateHTML (prices : List CryptoPrice) (error : Option String) (now : String) : String :=
  let priceCards := joinAll (prices.map priceCard)
  htmlPart1 ++ now ++ htmlPart2
    ++ (match error with
        | some e => if e = "" then "" else errDiv e
        | none => "")
    ++ htmlPart3
    ++ (if priceCards = "" then htmlLoadingCards else priceCards)
    ++ htmlPart4

/-! ### The dashboard HTTP server -/

/-- A response body: either the JSON envelope of `/api/prices` (kept
structured; `JSON.stringify` is the external serializer) or an HTML page. -/
inductive RespBody where
  | jsonBody (success : Bool) (data : Option (List CryptoPrice))
      (error : Option String) (timestamp : Option String)
  | htmlBody (doc : String)
deriving DecidableEq

/-- Status code, content type and body of one HTTP reply. -/
structure HttpReply where
  status : Nat
  contentType : String
  body : RespBody
deriving DecidableEq

/-- The dashboard server's request handler as a function of the path and of
the outcome of its `getCryptoPrices()` call: `/api/prices` answers JSON
(500 + `{success:false,error}` on failure), every other path answers the
dashboard page (200, with an empty quote list and the error message passed to
`generateHTML` on failure). -/
def handleRequest (pathname : String) (fetchResult : Except String (List CryptoPrice))
    (now : String) : HttpReply :=
  if pathname = "/api/prices" then
    match fetchResult with
    | Except.ok prices =>
        { status := 200, contentType := "application/json",
          body := RespBody.jsonBody true (some prices) none (some now) }
    | Except.error e =>
        { status := 500, contentType := "application/json",
          body := RespBody.jsonBody false none (some e) none }
  else
    match fetchResult with
    | Except.ok prices =>
        { status := 200, contentType := "text/html",
          body := RespBody.htmlBody (generateHTML prices none now) }
    | Except.error e =>
        { status := 200, contentType := "text/html",
          body := RespBody.htmlBody (generateHTML [] (some e) now) }

/-! ### Portfolio valuator (spec §4.3) -/

/-- Spec §3 `AssetQuote`. -/
structure AssetQuote where
  symbol : String
  providerId : String
  priceUsd : ℚ
  changePercent24h : ℚ

/-- Spec §3 `ExchangeRate`. -/
structure ExchangeRate where
  usdToLocal : ℚ

/-- Spec §3 `PortfolioValuation`. -/
structure PortfolioValuation where
  holdingsQty : ℚ
  valueUsd : ℚ
  valueLocal : ℚ
  changeUsd24h : ℚ
  changeLocal24h : ℚ

/-- Modelled from the spec: the Portfolio Valuator of §4.3 is described in the
spec but no variant under src/ computes a portfolio valuation, so the function
is taken from the spec's own formulas: `valueUsd = priceUsd * holdingsQty`,
`valueLocal = valueUsd * usdToLocal`, `changeUsd24h = valueUsd *
(changePercent24h / 100)`, `changeLocal24h = changeUsd24h * usdToLocal`. -/
def valuate (quote : AssetQuote) (holdingsQty : ℚ) (rate : ExchangeRate) :
    PortfolioValuation :=
  let valueUsd := quote.priceUsd * holdingsQty
  let valueLocal := valueUsd * rate.usdToLocal
  let changeUsd24h := valueUsd * (quote.changePercent24h / 100)
  let changeLocal24h := changeUsd24h * rate.usdToLocal
  { holdingsQty := holdingsQty, valueUsd := valueUsd, valueLocal := valueLocal,
    changeUsd24h := changeUsd24h, changeLocal24h := changeLocal24h }

/-! ### Concrete inputs used by witnesses and counterexamples -/

/-- Scenario A COOKIE quote: price 0.15, change +5.2. -/
def cookieQuote : CryptoPrice :=
  { id := "cookie-dao", symbol := "COOKIE", name := "COOKIE",
    current_price := mkRat 3 20, price_change_percentage_24h := mkRat 26 5 }

/-- Scenario A BTC quote: price 65000, change -1.3. -/
def btcQuote : CryptoPrice :=
  { id := "bitcoin", symbol := "BTC", name := "BTC",
    current_price := mkRat 65000 1, price_change_percentage_24h := mkRat (-13) 10 }

/-- A BTC quote whose 24h change is exactly zero. -/
def zeroChangeQuote : CryptoPrice :=
  { id := "bitcoin", symbol := "BTC", name := "BTC",
    current_price := mkRat 65000 1, price_change_percentage_24h := 0 }

/-- A price entry for Cookie DAO with the `usd_24h_change` field absent. -/
def cookiePd : PriceData :=
  { usd := mkRat 3 20, usd_24h_change := none }

/-- A response body whose only key is `cookie-dao`. -/
def respCookieDao : CoinGeckoResponse :=
  fun id => if id = "cookie-dao" then some cookiePd else none

/-- A response body whose only key is `bitcoin`. -/
def respBtcBody : CoinGeckoResponse :=
  fun id =>
    if id = "bitcoin" then some { usd := mkRat 65000 1, usd_24h_change := some (mkRat (-13) 10) }
    else none

/-- A successful fetch response carrying `respBtcBody`. -/
def respBtcOnly : HttpResponse :=
  { ok := true, status := 200, body := respBtcBody }

/-- A failed fetch response with HTTP status 503. -/
def resp503 : HttpResponse :=
  { ok := false, status := 503, body := fun _ => none }

/-- A push-pipeline environment whose price fetch failed with HTTP 503 and
whose bot credential and chat id are configured; the secondary notification
send itself would also fail. -/
def env503 : BotEnv :=
  { botToken := "tok", chatId := "chat",
    fetchResult := Except.error "HTTP error! status: 503",
    firstSendFails := none, notifySendFails := some "Telegram API error",
    date := "d", dateTime := "t" }

/-- A concrete asset quote for the valuator witness. -/
def btcAssetQuote : AssetQuote :=
  { symbol := "BTC", providerId := "bitcoin",
    priceUsd := mkRat 65000 1, changePercent24h := mkRat (-13) 10 }

/-! ### Helper lemmas about `parsePrices` -/

/-- `parsePrices` returns one quote per tracked entry whose provider id is
present in the response. -/
theorem parsePrices_length_filter (data : CoinGeckoResponse)
    (tokens : List (String × String)) :
    (parsePrices data tokens).length
      = (tokens.filter (fun p => (data p.2).isSome)).length := by
  induction tokens with
  | nil => rfl
  | cons p rest ih =>
    obtain ⟨symbol, coinGeckoId⟩ := p
    cases hd : data coinGeckoId with
    | none => simp [parsePrices, hd, ih]
    | some pd => simp [parsePrices, hd, ih]

/-- Every quote `parsePrices` returns comes from a present response entry for
a tracked pair, with the fields the loop body assigns. -/
theorem parsePrices_mem (data : CoinGeckoResponse) (tokens : List (String × String)) :
    ∀ q ∈ parsePrices data tokens, ∃ pd, data q.id = some pd ∧
      (q.symbol, q.id) ∈ tokens ∧ q.current_price = pd.usd ∧
      q.price_change_percentage_24h
        = (match pd.usd_24h_change with
           | some c => if c = 0 then 0 else c
           | none => 0) := by
  induction tokens with
  | nil => intro q hq; simp [parsePrices] at hq
  | cons p rest ih =>
    obtain ⟨symbol, coinGeckoId⟩ := p
    intro q hq
    cases hd : data coinGeckoId with
    | none =>
      simp only [parsePrices, hd] at hq
      obtain ⟨pd, h1, h2, h3⟩ := ih q hq
      exact ⟨pd, h1, List.mem_cons_of_mem _ h2, h3⟩
    | some pd =>
      simp only [parsePrices, hd] at hq
      rcases List.mem_cons.1 hq with hq | hq
      · subst hq
        exact ⟨pd, hd, List.mem_cons_self _ _, rfl, rfl⟩
      · obtain ⟨pd', h1, h2, h3⟩ := ih q hq
        exact ⟨pd', h1, List.mem_cons_of_mem _ h2, h3⟩

/-- A tracked pair whose provider id is present in the response produces a
quote. -/
theorem parsePrices_exists (data : CoinGeckoResponse) (tokens : List (String × String))
    (symbol coinGeckoId : String) (pd : PriceData)
    (hmem : (symbol, coinGeckoId) ∈ tokens) (hd : data coinGeckoId = some pd) :
    ∃ q ∈ parsePrices data tokens, q.symbol = symbol ∧ q.id = coinGeckoId := by
  induction tokens with
  | nil => simp at hmem
  | cons p rest ih =>
    obtain ⟨s, c⟩ := p
    rcases List.mem_cons.1 hmem with heq | hmem'
    · cases heq
      simp only [parsePrices, hd]
      exact ⟨_, List.mem_cons_self _ _, rfl, rfl⟩
    · obtain ⟨q, hq, hqs, hqi⟩ := ih hmem'
      cases hdc : data c with
      | none => simp only [parsePrices, hdc]; exact ⟨q, hq, hqs, hqi⟩
      | some pd' =>
        simp only [parsePrices, hdc]
        exact ⟨q, List.mem_cons_of_mem _ hq, hqs, hqi⟩

/-- The `(symbol, id)` pairs of the produced quotes form a sublist of the
token map: display order is the map's insertion order. -/
theorem parsePrices_sublist (data : CoinGeckoResponse) (tokens : List (String × String)) :
    ((parsePrices data tokens).map (fun q => (q.symbol, q.id))).Sublist tokens := by
  induction tokens with
  | nil => simp [parsePrices]
  | cons p rest ih =>
    obtain ⟨symbol, coinGeckoId⟩ := p
    cases hd : data coinGeckoId with
    | none =>
      rw [parsePrices, hd]
      exact ih.cons _
    | some pd =>
      rw [parsePrices, hd]
      simpa using ih.cons₂ (symbol, coinGeckoId)

/-- In the bot token map a symbol determines its provider id. -/
theorem crypto_tokens_fst_inj {symbol id1 id2 : String}
    (h1 : (symbol, id1) ∈ CRYPTO_TOKENS) (h2 : (symbol, id2) ∈ CRYPTO_TOKENS) :
    id1 = id2 := by
  simp [CRYPTO_TOKENS] at h1 h2
  rcases h1 with ⟨h, h'⟩ | ⟨h, h'⟩ | ⟨h, h'⟩ <;>
    rcases h2 with ⟨g, g'⟩ | ⟨g, g'⟩ | ⟨g, g'⟩ <;> subst_vars <;> simp_all

/-- `parsePrices` for a response whose key set is `S` returns `S.card`
quotes, provided the tracked provider ids are distinct and `S` only holds
tracked ids. -/
theorem parsePrices_length_card (tokens : List (String × String))
    (data : CoinGeckoResponse) (S : Finset String)
    (hnd : (tokens.map Prod.snd).Nodup)
    (hkeys : ∀ id, (data id).isSome = true ↔ id ∈ S)
    (hsub : ∀ id ∈ S, id ∈ tokens.map Prod.snd) :
    (parsePrices data tokens).length = S.card := by
  rw [parsePrices_length_filter]
  have h1 : tokens.filter (fun p => (data p.2).isSome)
      = tokens.filter (fun p => decide (p.2 ∈ S)) := by
    apply List.filter_congr
    intro p _
    cases h : (data p.2).isSome with
    | false =>
      have : p.2 ∉ S := fun hp => by rw [(hkeys p.2).2 hp] at h; cases h
      simp [this]
    | true => simp [(hkeys p.2).1 h]
  rw [h1]
  have h2 : (tokens.filter (fun p => decide (p.2 ∈ S))).length
      = ((tokens.map Prod.snd).filter (fun id => decide (id ∈ S))).length := by
    rw [List.filter_map, List.length_map]
    rfl
  rw [h2]
  have h3 : ((tokens.map Prod.snd).filter (fun id => decide (id ∈ S))).Nodup :=
    hnd.filter _
  have h4 : ((tokens.map Prod.snd).filter (fun id => decide (id ∈ S))).toFinset = S := by
    ext x
    constructor
    · intro hx
      exact of_decide_eq_true (List.mem_filter.1 (List.mem_toFinset.1 hx)).2
    · intro hx
      exact List.mem_toFinset.2 (List.mem_filter.2 ⟨hsub x hx, decide_eq_true hx⟩)
  rw [← List.toFinset_card_of_nodup h3, h4]

/-! ### Helper lemmas about the renderers and the push pipeline -/

/-- The `forEach` accumulation of `formatTelegramMessage` appends the
per-token blocks after the accumulator, in list order. -/
theorem foldl_tokenLine (prices : List CryptoPrice) (acc : String) :
    prices.foldl (fun message token => message ++ tokenLine token) acc
      = acc ++ joinAll (prices.map tokenLine) := by
  induction prices generalizing acc with
  | nil => simp [joinAll]
  | cons t rest ih =>
    simp only [List.foldl_cons, List.map_cons, joinAll, ih, String.append_assoc]

/-- The `catch` block of `sendCryptoPriceUpdate` never rethrows. -/
theorem updateCatchBlock_snd (env : BotEnv) (e : String) :
    (updateCatchBlock env e).2 = none := by
  unfold updateCatchBlock
  by_cases hc : env.botToken ≠ "" ∧ env.chatId ≠ ""
  · rw [if_pos hc]
    cases env.notifySendFails <;> rfl
  · rw [if_neg hc]

/-- With credentials configured, the `catch` block attempts exactly one
failure notification, whether or not that send itself fails. -/
theorem updateCatchBlock_fst_pos (env : BotEnv) (e : String)
    (hc : env.botToken ≠ "" ∧ env.chatId ≠ "") :
    (updateCatchBlock env e).1 = [telegramFailureText e env.dateTime] := by
  unfold updateCatchBlock
  rw [if_pos hc]
  cases env.notifySendFails <;> rfl

/-- Without credentials the `catch` block sends nothing. -/
theorem updateCatchBlock_fst_neg (env : BotEnv) (e : String)
    (hc : ¬(env.botToken ≠ "" ∧ env.chatId ≠ "")) :
    (updateCatchBlock env e).1 = [] := by
  unfold updateCatchBlock
  rw [if_neg hc]

/-! ### Claims -/

/-- C2: for all `(priceUsd, holdingsQty, usdToLocal)` with `priceUsd ≥ 0`, the
portfolio valuator returns `valueUsd = priceUsd * holdingsQty`,
`valueLocal = valueUsd * usdToLocal`, `changeUsd24h = valueUsd *
(changePercent24h / 100)` and `changeLocal24h = changeUsd24h * usdToLocal`. -/
theorem c2_valuate_formulas (quote : AssetQuote) (holdingsQty : ℚ) (rate : ExchangeRate)
    (_hpos : 0 ≤ quote.priceUsd) :
    (valuate quote holdingsQty rate).valueUsd = quote.priceUsd * holdingsQty ∧
    (valuate quote holdingsQty rate).valueLocal
      = (valuate quote holdingsQty rate).valueUsd * rate.usdToLocal ∧
    (valuate quote holdingsQty rate).changeUsd24h
      = (valuate quote holdingsQty rate).valueUsd * (quote.changePercent24h / 100) ∧
    (valuate quote holdingsQty rate).changeLocal24h
      = (valuate quote holdingsQty rate).changeUsd24h * rate.usdToLocal :=
  ⟨rfl, rfl, rfl, rfl⟩

/-- C2 witness: the valuator formulas at a concrete quote. -/
theorem c2_witness :
    0 ≤ btcAssetQuote.priceUsd ∧
    (valuate btcAssetQuote (mkRat 2 1) ⟨mkRat 155 100⟩).valueUsd
      = btcAssetQuote.priceUsd * mkRat 2 1 :=
  ⟨by decide, (c2_valuate_formulas btcAssetQuote (mkRat 2 1) ⟨mkRat 155 100⟩ (by decide)).1⟩

/-- C5: a tracked asset whose response entry is present but lacks the
24h-change field yields a quote with `price_change_percentage_24h` exactly 0. -/
theorem c5_missing_change_is_zero (data : CoinGeckoResponse)
    (symbol coinGeckoId : String) (pd : PriceData)
    (hmem : (symbol, coinGeckoId) ∈ CRYPTO_TOKENS)
    (hd : data coinGeckoId = some pd)
    (habsent : pd.usd_24h_change = none) :
    (∃ q ∈ parsePrices data CRYPTO_TOKENS, q.id = coinGeckoId) ∧
    (∀ q ∈ parsePrices data CRYPTO_TOKENS, q.id = coinGeckoId →
        q.price_change_percentage_24h = 0) := by
  constructor
  · obtain ⟨q, hq, _, hqi⟩ := parsePrices_exists data CRYPTO_TOKENS symbol coinGeckoId pd hmem hd
    exact ⟨q, hq, hqi⟩
  · intro q hq hqi
    obtain ⟨pd', h1, _, _, hchg⟩ := parsePrices_mem data CRYPTO_TOKENS q hq
    rw [hqi, hd] at h1
    injection h1 with h1
    subst h1
    rw [habsent] at hchg
    simpa using hchg

/-- C5 witness: a response with a Cookie DAO entry lacking the 24h field. -/
theorem c5_witness :
    ("COOKIE", "cookie-dao") ∈ CRYPTO_TOKENS ∧
    respCookieDao "cookie-dao" = some cookiePd ∧
    cookiePd.usd_24h_change = none ∧
    (∀ q ∈ parsePrices respCookieDao CRYPTO_TOKENS, q.id = "cookie-dao" →
        q.price_change_percentage_24h = 0) :=
  ⟨by decide, rfl, rfl,
    (c5_missing_change_is_zero respCookieDao "COOKIE" "cookie-dao" cookiePd
      (by decide) rfl rfl).2⟩

/-- C7: a quote with 24h change exactly 0 renders with the up indicator `📈`
and an explicit `+` sign (`>= 0` counts as up), never a neutral or down one. -/
theorem c7_zero_change_up (token : CryptoPrice)
    (h : token.price_change_percentage_24h = 0) :
    tokenLine token
      = "*" ++ token.symbol ++ "*\n"
          ++ ("💰 " ++ formatCurrencyUSD token.current_price ++ "\n")
          ++ "📈 +0.00% (24h)\n\n" := by
  simp only [tokenLine]
  rw [h]
  rfl

/-- C7 witness: the zero-change BTC quote rendered by the theorem. -/
theorem c7_witness :
    zeroChangeQuote.price_change_percentage_24h = 0 ∧
    tokenLine zeroChangeQuote
      = "*" ++ zeroChangeQuote.symbol ++ "*\n"
          ++ ("💰 " ++ formatCurrencyUSD zeroChangeQuote.current_price ++ "\n")
          ++ "📈 +0.00% (24h)\n\n" :=
  ⟨rfl, c7_zero_change_up zeroChangeQuote rfl⟩

/-- C8: both renderers are pure functions of the quote list (plus error for
the page) and the wall-clock string: identical inputs give identical output. -/
theorem c8_render_deterministic (prices1 prices2 : List CryptoPrice)
    (error1 error2 : Option String) (date1 date2 : String)
    (hp : prices1 = prices2) (he : error1 = error2) (hd : date1 = date2) :
    formatTelegramMessage prices1 date1 = formatTelegramMessage prices2 date2 ∧
    generateHTML prices1 error1 date1 = generateHTML prices2 error2 date2 := by
  subst hp; subst he; subst hd
  exact ⟨rfl, rfl⟩

/-- C8 witness: determinism at a concrete input. -/
theorem c8_witness :
    ([cookieQuote] : List CryptoPrice) = [cookieQuote] ∧
    formatTelegramMessage [cookieQuote] "date" = formatTelegramMessage [cookieQuote] "date" ∧
    generateHTML [cookieQuote] none "date" = generateHTML [cookieQuote] none "date" :=
  ⟨rfl, (c8_render_deterministic [cookieQuote] [cookieQuote] none none "date" "date"
      rfl rfl rfl).1,
    (c8_render_deterministic [cookieQuote] [cookieQuote] none none "date" "date"
      rfl rfl rfl).2⟩

/-- C9: a non-success HTTP status makes `getCryptoPrices` fail with the
`HTTP error! status: <code>` error after consuming exactly one fetch response
(the rest of the response sequence is untouched: no retry), and the error is
returned to the caller. -/
theorem c9_non_success_propagates (response : HttpResponse) (remaining : List HttpResponse)
    (hfail : response.ok = false) :
    getCryptoPricesRun (response :: remaining)
      = (Except.error ("HTTP error! status: " ++ toString response.status), remaining) := by
  simp [getCryptoPricesRun, getCryptoPrices, hfail]

/-- C9 witness: one HTTP 503 response. -/
theorem c9_witness :
    resp503.ok = false ∧
    getCryptoPricesRun [resp503] = (Except.error "HTTP error! status: 503", []) :=
  ⟨rfl, c9_non_success_propagates resp503 [] rfl⟩

/-- C10 counterexample: on a response whose only key is `cookie-dao`, the
Telegram-bot variant returns one COOKIE quote while the dashboard variant
(whose token map uses the id `cookie`) returns an empty list, so the variants'
`getCryptoPrices` are not extensionally equal. -/
theorem c10_counterexample :
    parsePrices respCookieDao CRYPTO_TOKENS
        ≠ parsePrices respCookieDao CRYPTO_TOKENS_dashboard ∧
    (parsePrices respCookieDao CRYPTO_TOKENS).length = 1 ∧
    (parsePrices respCookieDao CRYPTO_TOKENS_dashboard).length = 0 ∧
    getCryptoPrices { ok := true, status := 200, body := respCookieDao }
      = Except.ok [{ id := "cookie-dao", symbol := "COOKIE", name := "COOKIE",
                     current_price := mkRat 3 20, price_change_percentage_24h := 0 }] ∧
    getCryptoPrices_dashboard { ok := true, status := 200, body := respCookieDao }
      = Except.ok [] := by
  exact ⟨by decide, by decide, by decide, rfl, rfl⟩

/-- C10 (amended): the two chat-bot variants and the email variant have
extensionally equal `getCryptoPrices`; the dashboard variant shares only
BTC's provider id (`bitcoin`), so the two token maps agree exactly on the
BTC quotes they produce from any response. -/
theorem c10_amended_variant_agreement (response : HttpResponse) (data : CoinGeckoResponse) :
    getCryptoPrices_server response = getCryptoPrices response ∧
    getCryptoPrices_email response = getCryptoPrices response ∧
    (parsePrices data CRYPTO_TOKENS_dashboard).filter (fun q => q.symbol == "BTC")
      = (parsePrices data CRYPTO_TOKENS).filter (fun q => q.symbol == "BTC") := by
  refine ⟨rfl, rfl, ?_⟩
  cases h1 : data "cookie" <;> cases h2 : data "bitcoin" <;> cases h3 : data "kaito" <;>
    cases h4 : data "cookie-dao" <;> cases h5 : data "kaito-ai" <;>
      simp [parsePrices, CRYPTO_TOKENS, CRYPTO_TOKENS_dashboard, h1, h2, h3, h4, h5]

/-- C1: for a successful response whose key set `S` is a subset of the
tracked provider ids, `getCryptoPrices` succeeds with exactly `S.card`
quotes, each quote's symbol being the one the static token map associates
with its provider id, and no quote appears for a symbol whose provider id is
outside `S` (missing assets are dropped, not an error). -/
theorem c1_subset_of_tracked_ids (S : Finset String) (response : HttpResponse)
    (hok : response.ok = true)
    (hkeys : ∀ id, (response.body id).isSome = true ↔ id ∈ S)
    (hsub : ∀ id ∈ S, id ∈ CRYPTO_TOKENS.map Prod.snd) :
    getCryptoPrices response = Except.ok (parsePrices response.body CRYPTO_TOKENS) ∧
    (parsePrices response.body CRYPTO_TOKENS).length = S.card ∧
    (∀ q ∈ parsePrices response.body CRYPTO_TOKENS,
        (q.symbol, q.id) ∈ CRYPTO_TOKENS ∧ q.id ∈ S) ∧
    (∀ symbol coinGeckoId, (symbol, coinGeckoId) ∈ CRYPTO_TOKENS → coinGeckoId ∉ S →
        ∀ q ∈ parsePrices response.body CRYPTO_TOKENS, q.symbol ≠ symbol) := by
  refine ⟨?_, ?_, ?_, ?_⟩
  · simp [getCryptoPrices, hok]
  · exact parsePrices_length_card CRYPTO_TOKENS response.body S (by decide) hkeys hsub
  · intro q hq
    obtain ⟨pd, h1, h2, _⟩ := parsePrices_mem response.body CRYPTO_TOKENS q hq
    refine ⟨h2, (hkeys q.id).1 ?_⟩
    rw [h1]
    rfl
  · intro symbol coinGeckoId hmem hnot q hq hsym
    obtain ⟨pd, h1, h2, _⟩ := parsePrices_mem response.body CRYPTO_TOKENS q hq
    rw [hsym] at h2
    apply hnot
    rw [← crypto_tokens_fst_inj h2 hmem]
    exact (hkeys q.id).1 (by rw [h1]; rfl)

/-- C1 witness: a response containing only the `bitcoin` key. -/
theorem c1_witness :
    respBtcOnly.ok = true ∧
    (∀ id, (respBtcOnly.body id).isSome = true ↔ id ∈ ({"bitcoin"} : Finset String)) ∧
    (∀ id ∈ ({"bitcoin"} : Finset String), id ∈ CRYPTO_TOKENS.map Prod.snd) ∧
    (parsePrices respBtcOnly.body CRYPTO_TOKENS).length
      = ({"bitcoin"} : Finset String).card := by
  have hkeys : ∀ id, (respBtcOnly.body id).isSome = true
      ↔ id ∈ ({"bitcoin"} : Finset String) := by
    intro id
    by_cases h : id = "bitcoin" <;> simp [respBtcOnly, respBtcBody, h]
  have hsub : ∀ id ∈ ({"bitcoin"} : Finset String), id ∈ CRYPTO_TOKENS.map Prod.snd := by
    decide
  exact ⟨rfl, hkeys, hsub,
    (c1_subset_of_tracked_ids {"bitcoin"} respBtcOnly rfl hkeys hsub).2.1⟩

set_option maxRecDepth 8192 in
/-- C3: on the pull variant, a failed fetch makes `GET /api/prices` answer
500 with the `{success: false, error}` envelope (success answers 200 with
`{success: true, data, timestamp}`), while the dashboard path answers 200
with a complete HTML document containing the visible error banner. -/
theorem c3_pull_error_paths (e now : String) (prices : List CryptoPrice) (hne : e ≠ "") :
    (handleRequest "/api/prices" (Except.error e) now).status = 500 ∧
    (handleRequest "/api/prices" (Except.error e) now).body
      = RespBody.jsonBody false none (some e) none ∧
    (handleRequest "/api/prices" (Except.ok prices) now).status = 200 ∧
    (handleRequest "/api/prices" (Except.ok prices) now).body
      = RespBody.jsonBody true (some prices) none (some now) ∧
    (handleRequest "/" (Except.error e) now).status = 200 ∧
    (handleRequest "/" (Except.error e) now).body
      = RespBody.htmlBody (generateHTML [] (some e) now) ∧
    generateHTML [] (some e) now
      = htmlPart1 ++ now ++ htmlPart2 ++ errDiv e ++ htmlPart3
          ++ htmlLoadingCards ++ htmlPart4 ∧
    leadsWith htmlPart1.data "\n<!DOCTYPE html>".data = true ∧
    strContains htmlPart4 "</html>" = true := by
  refine ⟨rfl, rfl, rfl, rfl, rfl, rfl, ?_, by decide, by decide⟩
  simp [generateHTML, joinAll, hne]

/-- C3 witness: a concrete non-empty fetch-error message. -/
theorem c3_witness :
    ("HTTP error! status: 503" : String) ≠ "" ∧
    (handleRequest "/api/prices" (Except.error "HTTP error! status: 503") "now").status = 500 ∧
    (handleRequest "/" (Except.error "HTTP error! status: 503") "now").status = 200 := by
  have h := c3_pull_error_paths "HTTP error! status: 503" "now" [] (by decide)
  exact ⟨by decide, h.1, h.2.2.2.2.1⟩

/-- C6: the rendered Telegram message lists the per-asset blocks in exactly
the order of the quote list, which `parsePrices` produces in the insertion
order of the static token map; in Scenario A the COOKIE block (up indicator,
`+5.20%`) precedes the BTC block (down indicator, `-1.30%`). -/
theorem c6_display_order :
    (∀ (prices : List CryptoPrice) (date : String),
        formatTelegramMessage prices date
          = telegramHeader date ++ joinAll (prices.map tokenLine) ++ telegramFooter) ∧
    (∀ (data : CoinGeckoResponse) (tokens : List (String × String)),
        ((parsePrices data tokens).map (fun q => (q.symbol, q.id))).Sublist tokens) ∧
    (∀ date : String,
        formatTelegramMessage [cookieQuote, btcQuote] date
          = telegramHeader date
              ++ (tokenLine cookieQuote ++ (tokenLine btcQuote ++ "")) ++ telegramFooter) ∧
    tokenLine cookieQuote = "*COOKIE*\n💰 $0.15\n📈 +5.20% (24h)\n\n" ∧
    tokenLine btcQuote = "*BTC*\n💰 $65,000.00\n📉 -1.30% (24h)\n\n" := by
  refine ⟨?_, parsePrices_sublist, ?_, by decide, by decide⟩
  · intro prices date
    simp only [formatTelegramMessage, foldl_tokenLine]
  · intro date
    simp only [formatTelegramMessage, foldl_tokenLine, List.map_cons, List.map_nil, joinAll]

/-- C4: when the price fetch fails (or returns zero quotes) the push pipeline
aborts the normal report, attempts exactly one plain-text failure
notification (only when bot credential and chat id are configured), never
lets any error escape, and the outcome is unchanged whatever the secondary
notification send itself does. -/
theorem c4_push_failure_notification (env : BotEnv) (e : String)
    (hfail : env.fetchResult = Except.error e ∨
             (env.fetchResult = Except.ok [] ∧ e = "No price data retrieved")) :
    (∀ env' : BotEnv, (sendCryptoPriceUpdate env').2 = none) ∧
    ((env.botToken ≠ "" ∧ env.chatId ≠ "") →
        (sendCryptoPriceUpdate env).1 = [telegramFailureText e env.dateTime]) ∧
    ((env.botToken = "" ∨ env.chatId = "") → (sendCryptoPriceUpdate env).1 = []) ∧
    (∀ o, sendCryptoPriceUpdate { env with notifySendFails := o }
        = sendCryptoPriceUpdate env) := by
  have htry : updateTryBlock env = ([], some e) := by
    rcases hfail with hferr | ⟨hfok, he⟩
    · unfold updateTryBlock
      rw [hferr]
    · subst he
      unfold updateTryBlock
      rw [hfok]
      rfl
  refine ⟨?_, ?_, ?_, ?_⟩
  · intro env'
    rcases htry' : updateTryBlock env' with ⟨attempts, err⟩
    unfold sendCryptoPriceUpdate
    rw [htry']
    cases err with
    | none => rfl
    | some e' => exact updateCatchBlock_snd env' e'
  · intro hc
    unfold sendCryptoPriceUpdate
    rw [htry]
    show [] ++ (updateCatchBlock env e).1 = [telegramFailureText e env.dateTime]
    rw [List.nil_append, updateCatchBlock_fst_pos env e hc]
  · intro hc
    have hc' : ¬(env.botToken ≠ "" ∧ env.chatId ≠ "") := by
      rcases hc with h | h <;> simp [h]
    unfold sendCryptoPriceUpdate
    rw [htry]
    show [] ++ (updateCatchBlock env e).1 = []
    rw [List.nil_append, updateCatchBlock_fst_neg env e hc']
  · intro o
    obtain ⟨bt, ci, fr, fs, ns, d, dt⟩ := env
    have ht : updateTryBlock (BotEnv.mk bt ci fr fs o d dt)
        = updateTryBlock (BotEnv.mk bt ci fr fs ns d dt) := rfl
    unfold sendCryptoPriceUpdate
    rw [ht]
    rcases htry' : updateTryBlock (BotEnv.mk bt ci fr fs ns d dt) with ⟨attempts, err⟩
    cases err with
    | none => rfl
    | some e' =>
      have hcb : updateCatchBlock (BotEnv.mk bt ci fr fs o d dt) e'
          = updateCatchBlock (BotEnv.mk bt ci fr fs ns d dt) e' := by
        unfold updateCatchBlock
        by_cases hcc : bt ≠ "" ∧ ci ≠ ""
        · cases o <;> cases ns <;> simp [hcc]
        · simp [hcc]
      exact congrArg (fun c => (attempts ++ c.1, c.2)) hcb

/-- C4 witness: a configured environment whose fetch failed with HTTP 503 and
whose failure-notification send itself fails. -/
theorem c4_witness :
    env503.fetchResult = Except.error "HTTP error! status: 503" ∧
    env503.botToken ≠ "" ∧ env503.chatId ≠ "" ∧
    (sendCryptoPriceUpdate env503).2 = none ∧
    (sendCryptoPriceUpdate env503).1
      = [telegramFailureText "HTTP error! status: 503" "t"] := by
  have h := c4_push_failure_notification env503 "HTTP error! status: 503" (Or.inl rfl)
  exact ⟨rfl, by decide, by decide, h.1 env503, h.2.1 ⟨by decide, by decide⟩⟩
